import Mathlib

/-!
# backend-practice: authentication, authorization and error translation

A shallow embedding of `src/index.js`, `src/utils/authorize.js` and
`src/models/User.js`.

JavaScript values are typed as follows.  A property that may be absent is an
`Option` (`none` is `undefined`).  Strings are Lean strings.  Numbers that the
code reads (`statusCode`, `code`) are integers; `NaN` and fractional numbers
are outside the model.  An object that is only enumerated (`err.errors`,
`err.keyValue`) is the list of its entries in the order `Object.keys` yields.
-/

namespace BackendPractice

/-! ## Values and errors -/

/-- The value of `err.code`: absent, a number, or a string such as `"ECONNREFUSED"`. -/
inductive JsCode
  | undefined
  | num (n : Int)
  | str (s : String)
  deriving DecidableEq, Repr

/-- A thrown JavaScript error object, restricted to the properties the
service reads: `name`, `message`, `statusCode`, `code`, `errors` (field name to
the message of its validator error) and `keyValue`. -/
structure JsErr where
  name : Option String
  message : Option String
  statusCode : Option Int
  code : JsCode
  errors : Option (List (String × String))
  keyValue : Option (List (String × String))
  deriving DecidableEq, Repr

/-- The JSON body `{status, message}` written by the error handler. -/
structure ErrorBody where
  status : String
  message : String
  deriving DecidableEq, Repr

/-- The outcome of `res.status(code).json(body)` in the error handler. -/
structure ErrorResponse where
  statusCode : Int
  body : ErrorBody
  deriving DecidableEq, Repr

/-- The `TypeError` raised by `Object.values(undefined)` and `Object.keys(undefined)`. -/
def objectTypeError : JsErr :=
  { name := some "TypeError", message := some "Cannot convert undefined or null to object",
    statusCode := none, code := JsCode.undefined, errors := none, keyValue := none }

/-- JavaScript `statusCode || dflt` on an optional integer: `undefined` and `0` are falsy. -/
def orNum (v : Option Int) (dflt : Int) : Int :=
  match v with
  | none => dflt
  | some n => if n = 0 then dflt else n

/-- JavaScript `message || dflt` on an optional string: `undefined` and `""` are falsy. -/
def orStr (v : Option String) (dflt : String) : String :=
  match v with
  | none => dflt
  | some s => if s = "" then dflt else s

/-- The text a template literal substitutes for `${field}` when `field` is a
string or `undefined`. -/
def templateStr (v : Option String) : String :=
  match v with
  | none => "undefined"
  | some s => s

/-- The global error handling middleware of `src/index.js` (lines 200-222).
The two `if` statements run one after the other; both may fire.  The result is
`Except.error` when the handler itself throws.  Node's refusal of a status
outside 100..999 is not modelled. -/
def globalErrorHandler (err : JsErr) : Except JsErr ErrorResponse :=
  -- let { statusCode, message } = err;
  let statusCode := err.statusCode
  let message := err.message
  -- if (err.name == "ValidationError") { ... }
  let step1 : Except JsErr (Option Int × Option String) :=
    if err.name = some "ValidationError" then
      match err.errors with
      | none => Except.error objectTypeError
      | some errs => Except.ok (some 400, some (String.intercalate ". " (errs.map (fun e => e.2))))
    else Except.ok (statusCode, message)
  match step1 with
  | Except.error e => Except.error e
  | Except.ok (statusCode, message) =>
    -- if (err.code === 11000) { ... }
    let step2 : Except JsErr (Option Int × Option String) :=
      if err.code = JsCode.num 11000 then
        match err.keyValue with
        | none => Except.error objectTypeError
        | some kv =>
          let field := (kv.map (fun e => e.1)).head?
          Except.ok (some 400,
            some ("Duplicate field: " ++ templateStr field ++ ". Please use another value!"))
      else Except.ok (statusCode, message)
    match step2 with
    | Except.error e => Except.error e
    | Except.ok (statusCode, message) =>
      Except.ok
        { statusCode := orNum statusCode 500,
          body := { status := "error", message := orStr message "Internal Server Error" } }

/-! ## Domain errors and other thrown values -/

/-- Modelled from the spec: the Domain Error class `ApiError` (required from
`./utils/ApiError`, a file that is not among the sources).  The spec describes
it as a signal carrying an HTTP status code and a human-readable message, so
`new ApiError(statusCode, message)` carries exactly these two; as a subclass of
`Error` its name is not `"ValidationError"` and it has no `code`, `errors` or
`keyValue`. -/
def ApiError (statusCode : Int) (message : String) : JsErr :=
  { name := some "Error", message := some message, statusCode := some statusCode,
    code := JsCode.undefined, errors := none, keyValue := none }

/-- The `ReferenceError` thrown when an identifier that is bound nowhere is evaluated. -/
def referenceError (ident : String) : JsErr :=
  { name := some "ReferenceError", message := some (ident ++ " is not defined"),
    statusCode := none, code := JsCode.undefined, errors := none, keyValue := none }

/-- The `TypeError` thrown when a property of `undefined` is read (the engine
appends the name of the property to this message). -/
def undefinedPropertyError : JsErr :=
  { name := some "TypeError", message := some "Cannot read properties of undefined",
    statusCode := none, code := JsCode.undefined, errors := none, keyValue := none }

/-! ## Strings -/

/-- JavaScript `s.startsWith(pre)`. -/
def startsWith (s pre : String) : Bool :=
  pre.data.isPrefixOf s.data

/-- Splitting a character list at every occurrence of `sep`, as
`String.prototype.split` does for a one-character separator: the pieces between
the separators, empty pieces included. -/
def splitChars (sep : Char) : List Char → List (List Char)
  | [] => [[]]
  | c :: cs =>
    if c = sep then [] :: splitChars sep cs
    else
      match splitChars sep cs with
      | [] => [[c]]
      | piece :: pieces => (c :: piece) :: pieces

/-- JavaScript `s.split(sep)` for a one-character separator. -/
def strSplit (s : String) (sep : Char) : List String :=
  (splitChars sep s.data).map String.mk

/-! ## Data model -/

/-- A user document of the collection (`src/models/User.js`); `id` is the
string form of `_id`.  The timestamps are left out: no code under study reads them. -/
structure User where
  id : String
  name : String
  email : String
  password : String
  age : Option Int
  role : String
  deriving DecidableEq, Repr

/-- The user attributes a request body may carry; an absent key is `none`. -/
structure UserAttrs where
  name : Option String
  email : Option String
  password : Option String
  age : Option Int
  role : Option String
  deriving DecidableEq, Repr

/-- The payload `jwt.verify` returns; `id` is `undefined` when the payload has no such key. -/
structure JwtPayload where
  id : Option String
  deriving DecidableEq, Repr

/-- The parts of an Express request the service reads or writes. -/
structure Request where
  /-- The header `req.headers.authorization`. -/
  authorization : Option String
  /-- The path `req.originalUrl`. -/
  originalUrl : String
  /-- The route parameter `req.params.id`. -/
  paramsId : String
  /-- The parsed JSON document `req.body`. -/
  body : UserAttrs
  /-- The property `req.user`, set by `protect`. -/
  user : Option User
  deriving DecidableEq, Repr

/-- A response written by a route handler or by the error handler. -/
inductive Response
  /-- The error handler: `res.status(code).json(body)`. -/
  | error (r : ErrorResponse)
  /-- A handler: `res.status(code).json(user)`. -/
  | user (statusCode : Int) (u : User)
  /-- The signup handler: `res.status(201).json` of status, token and user. -/
  | signup (statusCode : Int) (token : String) (u : User)
  deriving DecidableEq, Repr

/-- A call a middleware makes to a collaborator, or to `next`. -/
inductive Effect
  | jwtVerify (token : String)
  | findById (id : Option String)
  | findByIdAndUpdate (id : String) (attrs : UserAttrs)
  | create (attrs : UserAttrs)
  | next (err : Option JsErr)
  deriving DecidableEq, Repr

/-- The collaborators of the service over a store state `σ`: the token library
and the operations of the `User` model the handlers call.  None of them is
defined in the repository; every property that quantifies over `Env` holds for
whatever they do. -/
structure Env (σ : Type) where
  /-- The call `jwt.verify(token, process.env.JWT_SECRET)`: the payload, or the thrown error. -/
  jwtVerify : String → Except JsErr JwtPayload
  /-- The call `jwt.sign` of an id payload with the secret and the one-hour expiry. -/
  jwtSign : String → String
  /-- The awaited `User.findById(id)`: the document, `null`, or a rejection. -/
  findById : σ → Option String → Except JsErr (Option User)
  /-- The awaited `User.findByIdAndUpdate(id, attrs, ...)` with `new` and `runValidators` set. -/
  findByIdAndUpdate : σ → String → UserAttrs → σ × Except JsErr (Option User)
  /-- The awaited `User.create(attrs)`. -/
  create : σ → UserAttrs → σ × Except JsErr User

/-- What running one middleware function leaves behind. -/
structure Run (σ : Type) where
  /-- The request object after the call. -/
  req : Request
  /-- The store after the call. -/
  db : σ
  /-- The collaborator and `next` calls made, in order. -/
  log : List Effect
  /-- The response written, if any. -/
  response : Option Response
  /-- The exception or rejection the function ended with, if any. -/
  thrown : Option JsErr

/-- A middleware function, applied to the store and the request. -/
abbrev Middleware (σ : Type) := σ → Request → Run σ

/-- The arguments of the `next` calls in a log, in order. -/
def nextCalls (log : List Effect) : List (Option JsErr) :=
  log.filterMap (fun e => match e with | Effect.next a => some a | _ => none)

/-! ## Middleware -/

/-- Modelled from the spec: the wrapper `catchAsync` (required from
`./utils/catchAsync`, a file that is not among the sources).  The spec says
every handler body is wrapped so that any failure is funneled to the Error
Translator: the wrapped function runs, and a rejection is passed to `next`. -/
def catchAsync {σ : Type} (fn : Middleware σ) : Middleware σ := fun db req =>
  let r := fn db req
  match r.thrown with
  | none => r
  | some e => { r with log := r.log ++ [Effect.next (some e)], thrown := none }

/-- The token `protect` reads from the header (`src/index.js`, lines 33-41):
`undefined` unless the header is present, non-empty and starts with `"Bearer "`,
and then the second piece of the header split at spaces. -/
def headerToken (authorization : Option String) : Option String :=
  match authorization with
  | none => none
  | some a =>
    if a ≠ "" ∧ startsWith a "Bearer " = true then (strSplit a ' ')[1]?
    else none

/-- The async function wrapped into `protect` (`src/index.js`, lines 32-55). -/
def protectFn {σ : Type} (env : Env σ) : Middleware σ := fun db req =>
  let token := headerToken req.authorization
  -- if (!token) throw new ApiError(401, "You are not logged in");
  match token with
  | none =>
    { req := req, db := db, log := [], response := none,
      thrown := some (ApiError 401 "You are not logged in") }
  | some tok =>
    if tok = "" then
      { req := req, db := db, log := [], response := none,
        thrown := some (ApiError 401 "You are not logged in") }
    else
      -- const decoded = jwt.verify(token, process.env.JWT_SECRET);
      match env.jwtVerify tok with
      | Except.error e =>
        { req := req, db := db, log := [Effect.jwtVerify tok], response := none, thrown := some e }
      | Except.ok decoded =>
        -- const currentUser = await User.findById(decoded.id);
        match env.findById db decoded.id with
        | Except.error e =>
          { req := req, db := db, log := [Effect.jwtVerify tok, Effect.findById decoded.id],
            response := none, thrown := some e }
        | Except.ok none =>
          { req := req, db := db, log := [Effect.jwtVerify tok, Effect.findById decoded.id],
            response := none, thrown := some (ApiError 401 "User no longer exist") }
        | Except.ok (some currentUser) =>
          -- req.user = currentUser; next();
          { req := { req with user := some currentUser }, db := db,
            log := [Effect.jwtVerify tok, Effect.findById decoded.id, Effect.next none],
            response := none, thrown := none }

/-- The middleware `protect` of `src/index.js`: `catchAsync` of the function above. -/
def protect {σ : Type} (env : Env σ) : Middleware σ :=
  catchAsync (protectFn env)

/-- The middleware `restrictTo(...allowedRoles)` of `src/utils/authorize.js`.
Reading `req.user.role` throws when `req.user` is not set. -/
def restrictTo {σ : Type} (allowedRoles : List String) : Middleware σ := fun db req =>
  match req.user with
  | none => { req := req, db := db, log := [], response := none, thrown := some undefinedPropertyError }
  | some u =>
    if !(allowedRoles.contains u.role) then
      { req := req, db := db, response := none, thrown := none,
        log := [Effect.next (some (ApiError 403 "You do not have permission to perform this action."))] }
    else
      { req := req, db := db, log := [Effect.next none], response := none, thrown := none }

/-! ## Routes -/

/-- The identifiers bound in the body of the PATCH handler: its two parameters
and the module-level bindings of `src/index.js`.  The handler is declared as
`async (req, res) => ...`, without a third parameter. -/
def patchHandlerScope : List String :=
  ["req", "res", "jwt", "mongoose", "User", "express", "catchAsync", "ApiError",
   "restrictTo", "app", "PORT", "protect", "signToken"]

/-- The async function wrapped into the handler of `PATCH /users/:id`
(`src/index.js`, lines 136-149).  In the ownership branch the callee `next` is
evaluated before its argument; an identifier that is not in scope throws a
`ReferenceError`. -/
def patchUserFn {σ : Type} (env : Env σ) : Middleware σ := fun db req =>
  match req.user with
  | none => { req := req, db := db, log := [], response := none, thrown := some undefinedPropertyError }
  | some u =>
    if u.role ≠ "admin" ∧ u.id ≠ req.paramsId then
      -- return next(new ApiError(403, 'Not your account'));
      if patchHandlerScope.contains "next" then
        { req := req, db := db, response := none, thrown := none,
          log := [Effect.next (some (ApiError 403 "Not your account"))] }
      else
        { req := req, db := db, log := [], response := none, thrown := some (referenceError "next") }
    else
      -- const user = await User.findByIdAndUpdate(req.params.id, req.body, ...);
      match env.findByIdAndUpdate db req.paramsId req.body with
      | (db1, Except.error e) =>
        { req := req, db := db1, log := [Effect.findByIdAndUpdate req.paramsId req.body],
          response := none, thrown := some e }
      | (db1, Except.ok none) =>
        { req := req, db := db1, log := [Effect.findByIdAndUpdate req.paramsId req.body],
          response := none, thrown := some (ApiError 404 "User not found") }
      | (db1, Except.ok (some user)) =>
        { req := req, db := db1, log := [Effect.findByIdAndUpdate req.paramsId req.body],
          response := some (Response.user 200 user), thrown := none }

/-- The async function wrapped into the handler of `POST /users` (lines 92-95). -/
def postUsersFn {σ : Type} (env : Env σ) : Middleware σ := fun db req =>
  match env.create db req.body with
  | (db1, Except.error e) =>
    { req := req, db := db1, log := [Effect.create req.body], response := none, thrown := some e }
  | (db1, Except.ok user) =>
    { req := req, db := db1, log := [Effect.create req.body],
      response := some (Response.user 201 user), thrown := none }

/-- The async function wrapped into the handler of `POST /signup` (lines 64-69):
only `name`, `email`, `password` and `age` of the body reach `User.create`. -/
def signupFn {σ : Type} (env : Env σ) : Middleware σ := fun db req =>
  let attrs : UserAttrs :=
    { name := req.body.name, email := req.body.email, password := req.body.password,
      age := req.body.age, role := none }
  match env.create db attrs with
  | (db1, Except.error e) =>
    { req := req, db := db1, log := [Effect.create attrs], response := none, thrown := some e }
  | (db1, Except.ok newUser) =>
    { req := req, db := db1, log := [Effect.create attrs],
      response := some (Response.signup 201 (env.jwtSign newUser.id) newUser), thrown := none }

/-- The outcome of serving one request. -/
structure Served (σ : Type) where
  /-- The store afterwards. -/
  db : σ
  /-- The collaborator and `next` calls made, in order. -/
  log : List Effect
  /-- The response: `Except.error` when the error handler itself threw, `none`
  when no stage answered. -/
  response : Except JsErr (Option Response)

/-- The response of the global error handler for `err`, as the outcome of a request. -/
def translate (err : JsErr) : Except JsErr (Option Response) :=
  match globalErrorHandler err with
  | Except.error e => Except.error e
  | Except.ok r => Except.ok (some (Response.error r))

/-- Express's dispatch of a route's middleware stack, followed by the two
`app.use` handlers at the end of `src/index.js`: a stage that answers ends the
request; `next(err)` or a synchronous throw goes to the global error handler;
`next()` goes to the following stage, and past the last one to the 404 handler,
which passes `ApiError(404, "Route <url> not found")` on. -/
def runStack {σ : Type} : List (Middleware σ) → σ → Request → Served σ
  | [], db, req =>
    { db := db, log := [],
      response := translate (ApiError 404 ("Route " ++ req.originalUrl ++ " not found")) }
  | m :: rest, db, req =>
    let r := m db req
    match r.response with
    | some resp => { db := r.db, log := r.log, response := Except.ok (some resp) }
    | none =>
      let thrown : List (Option JsErr) :=
        match r.thrown with
        | none => []
        | some e => [some e]
      match (nextCalls r.log ++ thrown).head? with
      | none => { db := r.db, log := r.log, response := Except.ok none }
      | some (some e) => { db := r.db, log := r.log, response := translate e }
      | some none =>
        let s := runStack rest r.db r.req
        { db := s.db, log := r.log ++ s.log, response := s.response }

/-- The route `PATCH /users/:id`: `protect`, then the wrapped handler (lines 133-150). -/
def patchUser {σ : Type} (env : Env σ) (db : σ) (req : Request) : Served σ :=
  runStack [protect env, catchAsync (patchUserFn env)] db req

/-- The route `POST /users` (lines 90-96). -/
def postUsers {σ : Type} (env : Env σ) (db : σ) (req : Request) : Served σ :=
  runStack [catchAsync (postUsersFn env)] db req

/-- The route `POST /signup` (lines 62-70). -/
def postSignup {σ : Type} (env : Env σ) (db : σ) (req : Request) : Served σ :=
  runStack [catchAsync (signupFn env)] db req

/-! ## The User model -/

/-- The library functions behind the `User` model that the repository calls
or configures but does not define. -/
structure Lib where
  /-- The call `bcrypt.hash(s, 12)`. -/
  hash : String → String
  /-- The validators of the schema other than `required`, run on a new
  document: the failing paths with their messages. -/
  validate : UserAttrs → List (String × String)
  /-- The update validators run by `runValidators: true` on the paths of an update. -/
  validateUpdate : UserAttrs → List (String × String)
  /-- The setter of `trim: true`. -/
  trim : String → String
  /-- The setter of `lowercase: true`. -/
  toLowerCase : String → String
  /-- The `_id` generated for a new document, as a string. -/
  newId : List User → String
  /-- The verification of a token with the secret. -/
  jwtVerify : String → Except JsErr JwtPayload
  /-- The signing of an id payload with the secret. -/
  jwtSign : String → String

/-- The pre-save hook of `userSchema` (`src/models/User.js`, lines 47-52),
applied to the document being saved.  `this.isModified` is a method of the
document, a function object, hence truthy: the early return is never taken. -/
def preSave (hash : String → String) (doc : User) : User :=
  let isModified : Bool := true
  if !isModified then doc
  else { doc with password := hash doc.password }

/-- The `required` validators of the schema, with the messages of the source.
Mongoose's `required` rejects an absent and an empty string, and lists the
failing paths in the reverse of the schema's order: `password`, `email`, `name`. -/
def requiredErrors (a : UserAttrs) : List (String × String) :=
  (if a.password = none ∨ a.password = some "" then [("password", "Password is required")]
   else [])
  ++ (if a.email = none ∨ a.email = some "" then [("email", "Email is required")] else [])
  ++ (if a.name = none ∨ a.name = some "" then [("name", "Name is required")] else [])

/-- The setters of the schema (`trim` on `name`, `lowercase` on `email`). -/
def castAttrs (lib : Lib) (a : UserAttrs) : UserAttrs :=
  { a with name := a.name.map lib.trim, email := a.email.map lib.toLowerCase }

/-- Mongoose's `ValidationError` for the failing paths `errs`. -/
def validationError (header : String) (errs : List (String × String)) : JsErr :=
  { name := some "ValidationError",
    message := some (header ++ ": "
      ++ String.intercalate ", " (errs.map (fun e => e.1 ++ ": " ++ e.2))),
    statusCode := none, code := JsCode.undefined, errors := some errs, keyValue := none }

/-- The driver's duplicate-key error for the unique index on `email` (its
message is abbreviated; the error handler does not read it). -/
def duplicateKeyError (email : String) : JsErr :=
  { name := some "MongoServerError", message := some "E11000 duplicate key error",
    statusCode := none, code := JsCode.num 11000, errors := none,
    keyValue := some [("email", email)] }

/-- Mongoose's `Model.findById` on a collection held as a list of documents,
for ids that cast to an `ObjectId`.  The rejection with a `CastError` for an id
that does not cast is not part of this instance; `Env.findById` allows it, and
the properties of `protect` are proved for every `Env`. -/
def findById (db : List User) (id : Option String) : Except JsErr (Option User) :=
  match id with
  | none => Except.ok none
  | some i => Except.ok (db.find? (fun d => d.id = i))

/-- Mongoose's `Model.create` for `userSchema`: setters and defaults, then
validation, then the `save` hooks (here `preSave`), then the insert, which the
unique index on `email` may refuse. -/
def create (lib : Lib) (db : List User) (attrs : UserAttrs) : List User × Except JsErr User :=
  let a := castAttrs lib attrs
  match requiredErrors a ++ lib.validate a with
  | e :: es => (db, Except.error (validationError "User validation failed" (e :: es)))
  | [] =>
    match a.name, a.email, a.password with
    | some name, some email, some password =>
      let doc : User := preSave lib.hash
        { id := lib.newId db, name := name, email := email, password := password,
          age := a.age, role := a.role.getD "user" }
      if db.any (fun d => d.email = doc.email) then (db, Except.error (duplicateKeyError doc.email))
      else (db ++ [doc], Except.ok doc)
    | _, _, _ => (db, Except.error (validationError "User validation failed" (requiredErrors a)))

/-- Mongoose's `Model.findByIdAndUpdate(id, attrs, ...)` with `new` and
`runValidators` set: the update validators run, then the given paths are set on
the matching document and the updated document is returned.  Only query
middleware runs on this operation and `userSchema` registers none; its `save`
hook is document middleware and is not run.  Two parts of the library are left
out of this instance: the `CastError` for an id that does not cast to an
`ObjectId`, and the projection of `select: false`, which drops `password` from
the document handed back; the document returned here is the stored one. -/
def findByIdAndUpdate (lib : Lib) (db : List User) (id : String) (attrs : UserAttrs) :
    List User × Except JsErr (Option User) :=
  let a := castAttrs lib attrs
  match lib.validateUpdate a with
  | e :: es => (db, Except.error (validationError "Validation failed" (e :: es)))
  | [] =>
    match db.find? (fun d => d.id = id) with
    | none => (db, Except.ok none)
    | some d =>
      let doc : User :=
        { id := d.id, name := a.name.getD d.name, email := a.email.getD d.email,
          password := a.password.getD d.password,
          age := (match a.age with | some n => some n | none => d.age),
          role := a.role.getD d.role }
      if db.any (fun o => o.id ≠ id ∧ o.email = doc.email) then
        (db, Except.error (duplicateKeyError doc.email))
      else (db.map (fun o => if o.id = id then doc else o), Except.ok (some doc))

/-- The service's collaborators when the store is a Mongoose collection of
`userSchema` documents. -/
def mongooseEnv (lib : Lib) : Env (List User) :=
  { jwtVerify := lib.jwtVerify, jwtSign := lib.jwtSign, findById := findById,
    findByIdAndUpdate := findByIdAndUpdate lib, create := create lib }

/-! ## Sample collaborators -/

/-- The error `jwt.verify` throws for a token it rejects (library
`jsonwebtoken`): a name, a message, and no status code. -/
def jsonWebTokenError (message : String) : JsErr :=
  { name := some "JsonWebTokenError", message := some message, statusCode := none,
    code := JsCode.undefined, errors := none, keyValue := none }

/-- The length of a string in UTF-16 code units, the `length` of a JavaScript string. -/
def utf16Length (s : String) : Nat :=
  (s.data.map (fun c => if c.toNat < 65536 then 1 else 2)).sum

/-- The `minLength: 8` validator of the `password` path, with the default
message of Mongoose 8. -/
def passwordMinLength (a : UserAttrs) : List (String × String) :=
  match a.password with
  | none => []
  | some p =>
    if utf16Length p < 8 then
      [("password", "Path `password` (`" ++ p ++ "`, length " ++ toString (utf16Length p)
          ++ ") is shorter than the minimum allowed length (8).")]
    else []

/-- Removal of leading and trailing whitespace. -/
def trimStr (s : String) : String :=
  String.mk ((s.data.dropWhile Char.isWhitespace).reverse.dropWhile Char.isWhitespace).reverse

/-- A sample of the libraries: tokens are the subject id behind the marker
"signed.", every other token is rejected with "jwt malformed", the message of
the library for a token that is not made of three parts; the hash is the
plaintext behind a bcrypt-style marker. -/
def sampleLib : Lib :=
  { hash := fun p => "$2a$12$" ++ p,
    validate := passwordMinLength,
    validateUpdate := passwordMinLength,
    trim := trimStr,
    toLowerCase := fun s => String.mk (s.data.map Char.toLower),
    newId := fun db => String.mk (List.replicate (db.length + 1) 'f'),
    jwtVerify := fun t =>
      if startsWith t "signed." = true then Except.ok { id := some (String.mk (t.data.drop 7)) }
      else Except.error (jsonWebTokenError "jwt malformed"),
    jwtSign := fun id => "signed." ++ id }

/-- The service over a Mongoose collection with the sample libraries. -/
def sampleEnv : Env (List User) := mongooseEnv sampleLib

/-- A user-role account. -/
def alice : User :=
  { id := "a1", name := "Alice", email := "alice@example.com",
    password := "$2a$12$alicepassword", age := some 30, role := "user" }

/-- A second user-role account. -/
def bob : User :=
  { id := "b2", name := "Bob", email := "bob@example.com",
    password := "$2a$12$bobpassword", age := none, role := "user" }

/-- An admin-role account. -/
def carol : User :=
  { id := "c3", name := "Carol", email := "carol@example.com",
    password := "$2a$12$carolpassword", age := none, role := "admin" }

/-- A collection holding the three accounts. -/
def sampleDb : List User := [alice, bob, carol]

/-- An empty request body. -/
def emptyAttrs : UserAttrs :=
  { name := none, email := none, password := none, age := none, role := none }

/-- A request to `/users/<id>` with the given authorization header and body. -/
def requestTo (authorization : Option String) (id : String) (body : UserAttrs) : Request :=
  { authorization := authorization, originalUrl := "/users/" ++ id, paramsId := id,
    body := body, user := none }

/-! ## Concrete inputs -/

/-- An unexpected exception: a `TypeError` with its own message and no status code. -/
def unexpectedError : JsErr :=
  { name := some "TypeError", message := some "Cannot read properties of undefined",
    statusCode := none, code := JsCode.undefined, errors := none, keyValue := none }

/-- A validation failure that also carries the duplicate-key code and a `keyValue` map. -/
def validationWithDuplicateCode : JsErr :=
  { name := some "ValidationError", message := some "User validation failed",
    statusCode := none, code := JsCode.num 11000,
    errors := some [("email", "Email is required")],
    keyValue := some [("email", "a@b.com")] }

/-- A validation failure on two fields that carries a status code and a message of its own. -/
def validationWithStatus : JsErr :=
  { name := some "ValidationError", message := some "User validation failed",
    statusCode := some 418, code := JsCode.undefined,
    errors := some [("name", "Name is required"), ("age", "Age must be positive")],
    keyValue := none }

/-- A validation failure whose map of field errors is empty. -/
def validationWithoutMessages : JsErr :=
  { name := some "ValidationError", message := some "Validation failed",
    statusCode := some 422, code := JsCode.undefined, errors := some [], keyValue := none }

/-- A duplicate-key failure on `email` that carries a status code and a message of its own. -/
def duplicateEmailError : JsErr :=
  { name := some "MongoServerError", message := some "E11000 duplicate key error",
    statusCode := some 503, code := JsCode.num 11000, errors := none,
    keyValue := some [("email", "a@b.com"), ("name", "Ann")] }

/-! ## Lemmas on strings -/

theorem append_ne_empty (s t : String) (h : s ≠ "") : s ++ t ≠ "" := by
  intro heq
  apply h
  have hd : (s ++ t).data = [] := by rw [heq]
  rw [String.data_append, List.append_eq_nil] at hd
  exact String.ext hd.1

theorem duplicate_message_ne_empty (field : String) :
    "Duplicate field: " ++ field ++ ". Please use another value!" ≠ "" :=
  append_ne_empty _ _ (append_ne_empty _ _ (by decide))

/-! ## The error handler -/

/-- C7, as stated, fails: an unexpected exception without a status code gets
status 500, but the body carries the exception's own message, not the generic
"Internal Server Error". -/
theorem unexpected_error_message_reaches_client :
    unexpectedError.name ≠ some "ValidationError"
    ∧ unexpectedError.code ≠ JsCode.num 11000
    ∧ unexpectedError.statusCode = none
    ∧ globalErrorHandler unexpectedError
        = Except.ok { statusCode := 500,
                      body := { status := "error", message := "Cannot read properties of undefined" } }
    ∧ globalErrorHandler unexpectedError
        ≠ Except.ok { statusCode := 500,
                      body := { status := "error", message := "Internal Server Error" } } := by
  refine ⟨by decide, by decide, rfl, rfl, ?_⟩
  intro h
  have h2 : globalErrorHandler unexpectedError
      = Except.ok { statusCode := 500,
                    body := { status := "error", message := "Cannot read properties of undefined" } } := rfl
  rw [h2] at h
  injection h with h3
  revert h3
  decide

/-- C7, amended: a failure that is no validation failure, has a code other
than 11000 and carries no status code is answered with status 500 and the body
status "error"; the body's message is the failure's own message when that is a
non-empty string, and "Internal Server Error" when the message is absent or
empty. -/
theorem unexpected_error_response (err : JsErr)
    (hname : err.name ≠ some "ValidationError")
    (hcode : err.code ≠ JsCode.num 11000)
    (hstatus : err.statusCode = none) :
    (∀ m : String, err.message = some m → m ≠ "" →
        globalErrorHandler err
          = Except.ok { statusCode := 500, body := { status := "error", message := m } })
    ∧ (err.message = none ∨ err.message = some "" →
        globalErrorHandler err
          = Except.ok { statusCode := 500,
                        body := { status := "error", message := "Internal Server Error" } }) := by
  constructor
  · intro m hm hne
    simp [globalErrorHandler, hname, hcode, hstatus, hm, orNum, orStr, hne]
  · intro h
    rcases h with h | h <;>
      simp [globalErrorHandler, hname, hcode, hstatus, h, orNum, orStr]

/-- Witness for C7, amended, at a `TypeError` with a message of its own. -/
theorem unexpected_error_response_witness :
    unexpectedError.name ≠ some "ValidationError"
    ∧ unexpectedError.code ≠ JsCode.num 11000
    ∧ unexpectedError.statusCode = none
    ∧ globalErrorHandler unexpectedError
        = Except.ok { statusCode := 500,
                      body := { status := "error", message := "Cannot read properties of undefined" } } :=
  ⟨by decide, by decide, rfl,
    (unexpected_error_response unexpectedError (by decide) (by decide) rfl).1
      "Cannot read properties of undefined" rfl (by decide)⟩

/-- C8, as stated, fails: a validation failure that also carries code 11000 is
answered with the duplicate-field message, not with the joined field messages;
the later branch overrides the earlier one. -/
theorem validation_with_duplicate_code_gets_duplicate_message :
    validationWithDuplicateCode.name = some "ValidationError"
    ∧ validationWithDuplicateCode.errors = some [("email", "Email is required")]
    ∧ globalErrorHandler validationWithDuplicateCode
        = Except.ok { statusCode := 400,
                      body := { status := "error",
                                message := "Duplicate field: email. Please use another value!" } }
    ∧ globalErrorHandler validationWithDuplicateCode
        ≠ Except.ok { statusCode := 400,
                      body := { status := "error", message := "Email is required" } } := by
  refine ⟨rfl, rfl, rfl, ?_⟩
  intro h
  have h2 : globalErrorHandler validationWithDuplicateCode
      = Except.ok { statusCode := 400,
                    body := { status := "error",
                              message := "Duplicate field: email. Please use another value!" } } := rfl
  rw [h2] at h
  injection h with h3
  revert h3
  decide

/-- C8, amended: a validation failure (name "ValidationError", field errors
`errs`) whose code is not 11000 is answered with status 400, whatever status
code and message it carries; the body's message is the field messages joined
with ". ", in field order, when that text is not empty, and "Internal Server
Error" when it is empty.  A validation failure that carries code 11000 together
with a `keyValue` map is answered with status 400 and the duplicate-field
message for the first key of that map. -/
theorem validation_error_response (err : JsErr) (errs : List (String × String))
    (hname : err.name = some "ValidationError")
    (herrs : err.errors = some errs) :
    (err.code ≠ JsCode.num 11000 →
      String.intercalate ". " (errs.map (fun e => e.2)) ≠ "" →
        globalErrorHandler err
          = Except.ok { statusCode := 400,
                        body := { status := "error",
                                  message := String.intercalate ". " (errs.map (fun e => e.2)) } })
    ∧ (err.code ≠ JsCode.num 11000 →
      String.intercalate ". " (errs.map (fun e => e.2)) = "" →
        globalErrorHandler err
          = Except.ok { statusCode := 400,
                        body := { status := "error", message := "Internal Server Error" } })
    ∧ (∀ kv : List (String × String), err.code = JsCode.num 11000 → err.keyValue = some kv →
        globalErrorHandler err
          = Except.ok { statusCode := 400,
                        body := { status := "error",
                                  message := "Duplicate field: "
                                    ++ templateStr ((kv.map (fun e => e.1)).head?)
                                    ++ ". Please use another value!" } }) := by
  refine ⟨?_, ?_, ?_⟩
  · intro hcode hne
    simp [globalErrorHandler, hname, herrs, hcode, orNum, orStr, hne]
  · intro hcode hempty
    simp [globalErrorHandler, hname, herrs, hcode, orNum, orStr, hempty]
  · intro kv hcode hkv
    simp only [globalErrorHandler, hname, herrs, hcode, hkv, orNum, orStr, if_true]
    rw [if_neg (duplicate_message_ne_empty _)]
    rfl

/-- Witness for C8, amended, in its three cases: a validation failure on two
fields that carries status code 418 and a message of its own, one whose map of
field errors is empty, and one that also carries code 11000 and a `keyValue`
map. -/
theorem validation_error_response_witness :
    validationWithStatus.name = some "ValidationError"
    ∧ validationWithStatus.statusCode = some 418
    ∧ globalErrorHandler validationWithStatus
        = Except.ok { statusCode := 400,
                      body := { status := "error",
                                message := "Name is required. Age must be positive" } }
    ∧ globalErrorHandler validationWithoutMessages
        = Except.ok { statusCode := 400,
                      body := { status := "error", message := "Internal Server Error" } }
    ∧ globalErrorHandler validationWithDuplicateCode
        = Except.ok { statusCode := 400,
                      body := { status := "error",
                                message := "Duplicate field: email. Please use another value!" } } :=
  ⟨rfl, rfl,
    (validation_error_response validationWithStatus
      [("name", "Name is required"), ("age", "Age must be positive")] rfl rfl).1
      (by decide) (by decide),
    (validation_error_response validationWithoutMessages [] rfl rfl).2.1
      (by decide) (by decide),
    (validation_error_response validationWithDuplicateCode
      [("email", "Email is required")] rfl rfl).2.2 [("email", "a@b.com")] rfl rfl⟩

/-- A failure with code 11000 and no `keyValue` map makes the error handler
itself throw, whether or not it is a validation failure with field errors. -/
theorem duplicate_code_without_keyValue_throws (err : JsErr)
    (hcode : err.code = JsCode.num 11000) (hkv : err.keyValue = none)
    (herrs : err.name = some "ValidationError" → err.errors ≠ none) :
    globalErrorHandler err = Except.error objectTypeError := by
  by_cases hname : err.name = some "ValidationError"
  · cases he : err.errors with
    | none => exact absurd he (herrs hname)
    | some errs => simp [globalErrorHandler, hname, he, hcode, hkv]
  · simp [globalErrorHandler, hname, hcode, hkv]

/-- C9: a failure with code 11000 and a non-empty `keyValue` map whose name is
not "ValidationError" is answered with status 400 and the body status "error",
message "Duplicate field: <first key>. Please use another value!", whatever
status code and message the failure carries. -/
theorem duplicate_key_response (err : JsErr) (field value : String)
    (rest : List (String × String))
    (hcode : err.code = JsCode.num 11000)
    (hkv : err.keyValue = some ((field, value) :: rest))
    (hname : err.name ≠ some "ValidationError") :
    globalErrorHandler err
      = Except.ok { statusCode := 400,
                    body := { status := "error",
                              message := "Duplicate field: " ++ field
                                ++ ". Please use another value!" } } := by
  have hmsg := duplicate_message_ne_empty field
  simp [globalErrorHandler, hname, hcode, hkv, orNum, orStr, templateStr, hmsg]

/-- Witness for C9 at a duplicate `email` that carries status code 503. -/
theorem duplicate_key_response_witness :
    duplicateEmailError.statusCode = some 503
    ∧ globalErrorHandler duplicateEmailError
        = Except.ok { statusCode := 400,
                      body := { status := "error",
                                message := "Duplicate field: email. Please use another value!" } } :=
  ⟨rfl, duplicate_key_response duplicateEmailError "email" "a@b.com" [("name", "Ann")]
    rfl rfl (by decide)⟩

/-! ## restrictTo -/

/-- C5: for every list of allowed roles and every request whose `user` is
set, `restrictTo` passes the 403 Domain Error "You do not have permission to
perform this action." to `next` exactly when the user's role is not among the
allowed roles; otherwise it calls `next` once with no error.  In both cases
`next` is its only call, and the request and the store are left as they were. -/
theorem restrictTo_forbids_iff_role_not_allowed {σ : Type} (allowedRoles : List String)
    (db : σ) (req : Request) (u : User) (hu : req.user = some u) :
    ((restrictTo allowedRoles db req).log
        = [Effect.next (some (ApiError 403 "You do not have permission to perform this action."))]
      ↔ u.role ∉ allowedRoles)
    ∧ ((restrictTo allowedRoles db req).log = [Effect.next none] ↔ u.role ∈ allowedRoles)
    ∧ (restrictTo allowedRoles db req).req = req
    ∧ (restrictTo allowedRoles db req).db = db
    ∧ (restrictTo allowedRoles db req).thrown = none
    ∧ (restrictTo allowedRoles db req).response = none
    ∧ (ApiError 403 "You do not have permission to perform this action.").statusCode = some 403
    ∧ (ApiError 403 "You do not have permission to perform this action.").message
        = some "You do not have permission to perform this action." := by
  by_cases hmem : u.role ∈ allowedRoles
  · simp [restrictTo, hu, hmem, ApiError]
  · simp [restrictTo, hu, hmem, ApiError]

/-- Witness for C5 with the allowed roles `admin` only: a user-role identity
is passed the 403 error, an admin-role identity passes with no error. -/
theorem restrictTo_admin_witness :
    (restrictTo ["admin"] sampleDb
        { requestTo none "b2" emptyAttrs with user := some alice }).log
      = [Effect.next (some (ApiError 403 "You do not have permission to perform this action."))]
    ∧ (restrictTo ["admin"] sampleDb
        { requestTo none "b2" emptyAttrs with user := some carol }).log
      = [Effect.next none] :=
  ⟨(restrictTo_forbids_iff_role_not_allowed ["admin"] sampleDb
      { requestTo none "b2" emptyAttrs with user := some alice } alice rfl).1.mpr (by decide),
   (restrictTo_forbids_iff_role_not_allowed ["admin"] sampleDb
      { requestTo none "b2" emptyAttrs with user := some carol } carol rfl).2.1.mpr (by decide)⟩

/-! ## protect -/

/-- What `protectFn` does once the token read from the header is known to be
absent or empty: it throws the 401 error and calls nothing. -/
theorem protectFn_without_token {σ : Type} (env : Env σ) (db : σ) (req : Request)
    (h : headerToken req.authorization = none ∨ headerToken req.authorization = some "") :
    protectFn env db req
      = { req := req, db := db, log := [], response := none,
          thrown := some (ApiError 401 "You are not logged in") } := by
  rcases h with h | h <;> simp [protectFn, h]

/-- Splitting a text that begins with "Bearer " at spaces: the first piece is
"Bearer", the others are the pieces of what follows. -/
theorem splitChars_bearer (cs : List Char) :
    splitChars ' ' ('B' :: 'e' :: 'a' :: 'r' :: 'e' :: 'r' :: ' ' :: cs)
      = ['B', 'e', 'a', 'r', 'e', 'r'] :: splitChars ' ' cs := by
  simp [splitChars]

/-- The characters of "Bearer " followed by `rest`. -/
theorem bearer_data (rest : String) :
    ("Bearer " ++ rest).data = 'B' :: 'e' :: 'a' :: 'r' :: 'e' :: 'r' :: ' ' :: rest.data := by
  rw [String.data_append]
  rfl

/-- The first piece of a text that is empty or begins with the separator is empty. -/
theorem splitChars_head_empty (sep : Char) (cs : List Char)
    (h : cs = [] ∨ ∃ r, cs = sep :: r) :
    ∃ pieces, splitChars sep cs = [] :: pieces := by
  rcases h with h | ⟨r, h⟩
  · exact ⟨[], by rw [h]; rfl⟩
  · exact ⟨splitChars sep r, by rw [h]; simp [splitChars]⟩

/-- The token read from a header that is absent, does not start with
"Bearer ", or continues after "Bearer " with nothing or with another space. -/
theorem headerToken_malformed (authorization : Option String)
    (h : authorization = none
      ∨ ∃ a, authorization = some a
        ∧ (startsWith a "Bearer " = false
          ∨ ∃ rest, a = "Bearer " ++ rest ∧ (rest = "" ∨ startsWith rest " " = true))) :
    headerToken authorization = none ∨ headerToken authorization = some "" := by
  rcases h with h | ⟨a, ha, h | ⟨rest, hrest, hempty⟩⟩
  · left; simp [headerToken, h]
  · left; simp [headerToken, ha, h]
  · right
    have hcs : rest.data = [] ∨ ∃ r, rest.data = ' ' :: r := by
      rcases hempty with he | he
      · left; rw [he]
      · right
        unfold startsWith at he
        cases hr : rest.data with
        | nil =>
          rw [hr] at he
          exact absurd he (by decide)
        | cons c r =>
          rw [hr] at he
          have hc : c = ' ' := by
            by_contra hne
            have hne2 : ¬ (' ' = c) := fun h2 => hne h2.symm
            simp [List.isPrefixOf, hne2] at he
          exact ⟨r, by rw [hc]⟩
    obtain ⟨pieces, hp⟩ := splitChars_head_empty ' ' rest.data hcs
    have hne : a ≠ "" := by
      rw [hrest]
      exact append_ne_empty _ _ (by decide)
    have hs : startsWith a "Bearer " = true := by
      unfold startsWith
      rw [hrest, bearer_data]
      simp [List.isPrefixOf]
    have hsplit : (strSplit a ' ')[1]? = some "" := by
      unfold strSplit
      rw [hrest, bearer_data, splitChars_bearer, hp]
      simp
    simp [headerToken, ha, hne, hs, hsplit]

/-- C2: when the authorization header is absent, does not start with
"Bearer ", or has an empty token after "Bearer " (nothing follows, or another
space does), `protect` fails with the 401 Domain Error "You are not logged in",
handed to `next` by the wrapper; the token is not verified, the store is not
queried, and the request is left as it was. -/
theorem protect_rejects_missing_or_malformed_header {σ : Type} (env : Env σ) (db : σ)
    (req : Request)
    (h : req.authorization = none
      ∨ ∃ a, req.authorization = some a
        ∧ (startsWith a "Bearer " = false
          ∨ ∃ rest, a = "Bearer " ++ rest ∧ (rest = "" ∨ startsWith rest " " = true))) :
    (protectFn env db req).thrown = some (ApiError 401 "You are not logged in")
    ∧ (protect env db req).log = [Effect.next (some (ApiError 401 "You are not logged in"))]
    ∧ (∀ t, Effect.jwtVerify t ∉ (protect env db req).log)
    ∧ (∀ i, Effect.findById i ∉ (protect env db req).log)
    ∧ (protect env db req).req = req
    ∧ (protect env db req).db = db
    ∧ (ApiError 401 "You are not logged in").statusCode = some 401
    ∧ (ApiError 401 "You are not logged in").message = some "You are not logged in" := by
  have hfn := protectFn_without_token env db req (headerToken_malformed req.authorization h)
  have hp : protect env db req
      = { req := req, db := db, log := [Effect.next (some (ApiError 401 "You are not logged in"))],
          response := none, thrown := none } := by
    simp [protect, catchAsync, hfn]
  rw [hfn, hp]
  simp [ApiError]

/-- Witness for C2: no header, the header of another scheme, the bare
"Bearer ", and "Bearer" followed by two spaces. -/
theorem protect_rejects_missing_or_malformed_header_witness :
    (protect sampleEnv sampleDb (requestTo none "a1" emptyAttrs)).log
      = [Effect.next (some (ApiError 401 "You are not logged in"))]
    ∧ (protect sampleEnv sampleDb (requestTo (some "Basic signed.a1") "a1" emptyAttrs)).log
      = [Effect.next (some (ApiError 401 "You are not logged in"))]
    ∧ (protect sampleEnv sampleDb (requestTo (some "Bearer ") "a1" emptyAttrs)).log
      = [Effect.next (some (ApiError 401 "You are not logged in"))]
    ∧ (protect sampleEnv sampleDb (requestTo (some "Bearer  signed.a1") "a1" emptyAttrs)).log
      = [Effect.next (some (ApiError 401 "You are not logged in"))] :=
  ⟨(protect_rejects_missing_or_malformed_header sampleEnv sampleDb
      (requestTo none "a1" emptyAttrs) (Or.inl rfl)).2.1,
   (protect_rejects_missing_or_malformed_header sampleEnv sampleDb
      (requestTo (some "Basic signed.a1") "a1" emptyAttrs)
      (Or.inr ⟨"Basic signed.a1", rfl, Or.inl (by decide)⟩)).2.1,
   (protect_rejects_missing_or_malformed_header sampleEnv sampleDb
      (requestTo (some "Bearer ") "a1" emptyAttrs)
      (Or.inr ⟨"Bearer ", rfl, Or.inr ⟨"", by decide, Or.inl rfl⟩⟩)).2.1,
   (protect_rejects_missing_or_malformed_header sampleEnv sampleDb
      (requestTo (some "Bearer  signed.a1") "a1" emptyAttrs)
      (Or.inr ⟨"Bearer  signed.a1", rfl,
        Or.inr ⟨" signed.a1", by decide, Or.inr (by decide)⟩⟩)).2.1⟩

/-- The token read from a header that starts with "Bearer ". -/
theorem headerToken_bearer (a : String) (hs : startsWith a "Bearer " = true) :
    headerToken (some a) = (strSplit a ' ')[1]? := by
  have hne : a ≠ "" := by
    intro h
    subst h
    revert hs
    decide
  simp [headerToken, hne, hs]

/-- The run of `protect` when the header yields the token `tok`, the token
verifies to `payload`, and the store returns `u` for the payload's id. -/
theorem protect_resolved {σ : Type} (env : Env σ) (db : σ) (req : Request)
    (tok : String) (payload : JwtPayload) (u : User)
    (htok : headerToken req.authorization = some tok) (hne : tok ≠ "")
    (hv : env.jwtVerify tok = Except.ok payload)
    (hf : env.findById db payload.id = Except.ok (some u)) :
    protect env db req
      = { req := { req with user := some u }, db := db,
          log := [Effect.jwtVerify tok, Effect.findById payload.id, Effect.next none],
          response := none, thrown := none } := by
  simp [protect, catchAsync, protectFn, htok, hne, hv, hf]

/-- C1: `protect` calls `next` without an error exactly when the
authorization header is present and starts with "Bearer ", the token (the
second piece of the header split at spaces) is non-empty and verifies, and the
store returns a user for the id of the verified payload; and in that case the
request's `user` is that user. -/
theorem protect_passes_iff_resolved {σ : Type} (env : Env σ) (db : σ) (req : Request) :
    (Effect.next none ∈ (protect env db req).log ↔
      ∃ a tok payload u, req.authorization = some a ∧ startsWith a "Bearer " = true
        ∧ (strSplit a ' ')[1]? = some tok ∧ tok ≠ ""
        ∧ env.jwtVerify tok = Except.ok payload
        ∧ env.findById db payload.id = Except.ok (some u))
    ∧ (∀ a tok payload u, req.authorization = some a → startsWith a "Bearer " = true
        → (strSplit a ' ')[1]? = some tok → tok ≠ ""
        → env.jwtVerify tok = Except.ok payload
        → env.findById db payload.id = Except.ok (some u)
        → (protect env db req).req.user = some u) := by
  have hres : ∀ a tok payload u, req.authorization = some a → startsWith a "Bearer " = true
      → (strSplit a ' ')[1]? = some tok → tok ≠ ""
      → env.jwtVerify tok = Except.ok payload
      → env.findById db payload.id = Except.ok (some u)
      → protect env db req
        = { req := { req with user := some u }, db := db,
            log := [Effect.jwtVerify tok, Effect.findById payload.id, Effect.next none],
            response := none, thrown := none } := by
    intro a tok payload u ha hs ht hne hv hf
    have htok : headerToken req.authorization = some tok := by
      rw [ha, headerToken_bearer a hs, ht]
    exact protect_resolved env db req tok payload u htok hne hv hf
  refine ⟨⟨?_, ?_⟩, ?_⟩
  · intro hmem
    cases ha : req.authorization with
    | none =>
      have hfn := protectFn_without_token env db req (Or.inl (by simp [headerToken, ha]))
      simp [protect, catchAsync, hfn] at hmem
    | some a =>
      by_cases hs : startsWith a "Bearer " = true
      · have htok := headerToken_bearer a hs
        cases ht : (strSplit a ' ')[1]? with
        | none =>
          have hfn := protectFn_without_token env db req (Or.inl (by rw [ha, htok, ht]))
          simp [protect, catchAsync, hfn] at hmem
        | some tok =>
          have htok2 : headerToken req.authorization = some tok := by rw [ha, htok, ht]
          by_cases hne : tok = ""
          · have hfn := protectFn_without_token env db req (Or.inr (by rw [htok2, hne]))
            simp [protect, catchAsync, hfn] at hmem
          · cases hv : env.jwtVerify tok with
            | error e =>
              simp [protect, catchAsync, protectFn, htok2, hne, hv] at hmem
            | ok payload =>
              cases hf : env.findById db payload.id with
              | error e =>
                simp [protect, catchAsync, protectFn, htok2, hne, hv, hf] at hmem
              | ok found =>
                cases found with
                | none =>
                  simp [protect, catchAsync, protectFn, htok2, hne, hv, hf, ApiError] at hmem
                | some u =>
                  exact ⟨a, tok, payload, u, rfl, hs, ht, hne, hv, hf⟩
      · have hfn := protectFn_without_token env db req
          (Or.inl (by simp [headerToken, ha, hs]))
        simp [protect, catchAsync, hfn] at hmem
  · rintro ⟨a, tok, payload, u, ha, hs, ht, hne, hv, hf⟩
    rw [hres a tok payload u ha hs ht hne hv hf]
    simp
  · intro a tok payload u ha hs ht hne hv hf
    rw [hres a tok payload u ha hs ht hne hv hf]

/-- Splitting at a separator that does not occur yields the input as the only piece. -/
theorem splitChars_no_sep (sep : Char) (cs : List Char) (h : sep ∉ cs) :
    splitChars sep cs = [cs] := by
  induction cs with
  | nil => rfl
  | cons c cs ih =>
    have hc : c ≠ sep := fun hEq => h (by simp [hEq])
    have hcs : sep ∉ cs := fun hm => h (List.mem_cons_of_mem c hm)
    simp [splitChars, hc, ih hcs]

/-- A header of the form "Bearer <token>", the token free of spaces, starts
with "Bearer " and has the token as its second piece. -/
theorem bearer_header_token (tok : String) (h : ' ' ∉ tok.data) :
    startsWith ("Bearer " ++ tok) "Bearer " = true
    ∧ (strSplit ("Bearer " ++ tok) ' ')[1]? = some tok := by
  constructor
  · unfold startsWith
    rw [bearer_data]
    simp [List.isPrefixOf]
  · unfold strSplit
    rw [bearer_data, splitChars_bearer, splitChars_no_sep ' ' tok.data h]
    rfl

/-- C3, as stated, fails: a request with a well-formed Bearer header whose
token is rejected by the verifier is answered with status 500 and the
library's message, not with 401. -/
theorem rejected_token_response_is_500 :
    startsWith "Bearer forged.token" "Bearer " = true
    ∧ sampleEnv.jwtVerify "forged.token" = Except.error (jsonWebTokenError "jwt malformed")
    ∧ (protect sampleEnv sampleDb (requestTo (some "Bearer forged.token") "a1" emptyAttrs)).log
        = [Effect.jwtVerify "forged.token",
           Effect.next (some (jsonWebTokenError "jwt malformed"))]
    ∧ globalErrorHandler (jsonWebTokenError "jwt malformed")
        = Except.ok { statusCode := 500,
                      body := { status := "error", message := "jwt malformed" } }
    ∧ (patchUser sampleEnv sampleDb
        (requestTo (some "Bearer forged.token") "a1" emptyAttrs)).response
        = Except.ok (some (Response.error
            { statusCode := 500, body := { status := "error", message := "jwt malformed" } }))
    ∧ (500 : Int) ≠ 401 := by
  refine ⟨by decide, rfl, rfl, rfl, rfl, by decide⟩

/-- C3, amended: when the header starts with "Bearer " and its non-empty
token is rejected by the verifier with the failure `e`, `protect` hands exactly
`e` to `next` without querying the store or touching the request, and a route
gated by `protect` answers with the Error Translator's response for `e`.  For
a failure that carries no status code, is no validation failure and has a code
other than 11000, as the failures of the token library are, that response has
HTTP status 500. -/
theorem protect_verification_failure_reaches_translator {σ : Type} (env : Env σ) (db : σ)
    (req : Request) (a tok : String) (e : JsErr)
    (ha : req.authorization = some a) (hs : startsWith a "Bearer " = true)
    (ht : (strSplit a ' ')[1]? = some tok) (hne : tok ≠ "")
    (hv : env.jwtVerify tok = Except.error e) :
    (protect env db req).log = [Effect.jwtVerify tok, Effect.next (some e)]
    ∧ (protect env db req).req = req
    ∧ (patchUser env db req).response = translate e
    ∧ (patchUser env db req).db = db
    ∧ (e.statusCode = none → e.name ≠ some "ValidationError" → e.code ≠ JsCode.num 11000 →
        ∃ message, globalErrorHandler e
          = Except.ok { statusCode := 500, body := { status := "error", message := message } }) := by
  have htok : headerToken req.authorization = some tok := by
    rw [ha, headerToken_bearer a hs, ht]
  have hp : protect env db req
      = { req := req, db := db, log := [Effect.jwtVerify tok, Effect.next (some e)],
          response := none, thrown := none } := by
    simp [protect, catchAsync, protectFn, htok, hne, hv]
  refine ⟨by rw [hp], by rw [hp], ?_, ?_, ?_⟩
  · simp [patchUser, runStack, hp, nextCalls]
  · simp [patchUser, runStack, hp, nextCalls]
  · intro hstatus hname hcode
    exact ⟨orStr e.message "Internal Server Error", by
      simp [globalErrorHandler, hname, hcode, hstatus, orNum]⟩

/-- Witness for C3, amended, at a forged token. -/
theorem protect_verification_failure_witness :
    (protect sampleEnv sampleDb (requestTo (some "Bearer forged.token") "a1" emptyAttrs)).log
        = [Effect.jwtVerify "forged.token",
           Effect.next (some (jsonWebTokenError "jwt malformed"))]
    ∧ (patchUser sampleEnv sampleDb
        (requestTo (some "Bearer forged.token") "a1" emptyAttrs)).response
        = translate (jsonWebTokenError "jwt malformed") :=
  ⟨(protect_verification_failure_reaches_translator sampleEnv sampleDb
      (requestTo (some "Bearer forged.token") "a1" emptyAttrs) "Bearer forged.token"
      "forged.token" (jsonWebTokenError "jwt malformed") rfl (by decide) rfl (by decide)
      rfl).1,
   (protect_verification_failure_reaches_translator sampleEnv sampleDb
      (requestTo (some "Bearer forged.token") "a1" emptyAttrs) "Bearer forged.token"
      "forged.token" (jsonWebTokenError "jwt malformed") rfl (by decide) rfl (by decide)
      rfl).2.2.1⟩

/-- C4, as stated, fails on the message: for a verified token whose subject
is no longer in the store the code raises the 401 error with the message "User
no longer exist", which is not the text "User no longer exists". -/
theorem deleted_user_message_differs :
    sampleEnv.jwtVerify "signed.a1" = Except.ok { id := some "a1" }
    ∧ sampleEnv.findById [bob, carol] (some "a1") = Except.ok none
    ∧ (protectFn sampleEnv [bob, carol]
        (requestTo (some "Bearer signed.a1") "a1" emptyAttrs)).thrown
        = some (ApiError 401 "User no longer exist")
    ∧ (protectFn sampleEnv [bob, carol]
        (requestTo (some "Bearer signed.a1") "a1" emptyAttrs)).thrown
        ≠ some (ApiError 401 "User no longer exists") := by
  refine ⟨rfl, rfl, rfl, ?_⟩
  have h : (protectFn sampleEnv [bob, carol]
      (requestTo (some "Bearer signed.a1") "a1" emptyAttrs)).thrown
      = some (ApiError 401 "User no longer exist") := rfl
  rw [h]
  decide

/-- C4, amended: when the token verifies and the store has no user for the id
of its payload, `protect` fails with the 401 Domain Error whose message is
"User no longer exist", handed to `next` by the wrapper, and the request is
left as it was: no user is attached. -/
theorem protect_rejects_deleted_user {σ : Type} (env : Env σ) (db : σ) (req : Request)
    (a tok : String) (payload : JwtPayload)
    (ha : req.authorization = some a) (hs : startsWith a "Bearer " = true)
    (ht : (strSplit a ' ')[1]? = some tok) (hne : tok ≠ "")
    (hv : env.jwtVerify tok = Except.ok payload)
    (hf : env.findById db payload.id = Except.ok none) :
    (protectFn env db req).thrown = some (ApiError 401 "User no longer exist")
    ∧ (protect env db req).log
        = [Effect.jwtVerify tok, Effect.findById payload.id,
           Effect.next (some (ApiError 401 "User no longer exist"))]
    ∧ (protect env db req).req = req
    ∧ (ApiError 401 "User no longer exist").statusCode = some 401
    ∧ (ApiError 401 "User no longer exist").message = some "User no longer exist" := by
  have htok : headerToken req.authorization = some tok := by
    rw [ha, headerToken_bearer a hs, ht]
  refine ⟨?_, ?_, ?_, rfl, rfl⟩
  · simp [protectFn, htok, hne, hv, hf]
  · simp [protect, catchAsync, protectFn, htok, hne, hv, hf]
  · simp [protect, catchAsync, protectFn, htok, hne, hv, hf]

/-- Witness for C4, amended: a valid token for an account that was deleted. -/
theorem protect_rejects_deleted_user_witness :
    (protect sampleEnv [bob, carol] (requestTo (some "Bearer signed.a1") "a1" emptyAttrs)).log
      = [Effect.jwtVerify "signed.a1", Effect.findById (some "a1"),
         Effect.next (some (ApiError 401 "User no longer exist"))]
    ∧ (protect sampleEnv [bob, carol]
        (requestTo (some "Bearer signed.a1") "a1" emptyAttrs)).req.user = none :=
  ⟨(protect_rejects_deleted_user sampleEnv [bob, carol]
      (requestTo (some "Bearer signed.a1") "a1" emptyAttrs) "Bearer signed.a1" "signed.a1"
      { id := some "a1" } rfl (by decide) rfl (by decide) rfl rfl).2.1,
   by rw [(protect_rejects_deleted_user sampleEnv [bob, carol]
      (requestTo (some "Bearer signed.a1") "a1" emptyAttrs) "Bearer signed.a1" "signed.a1"
      { id := some "a1" } rfl (by decide) rfl (by decide) rfl rfl).2.2.1]; rfl⟩

/-! ## PATCH /users/:id -/

/-- C6, on the code: when `protect` resolves the caller to a user who is not
an admin and whose id differs from the path parameter, the ownership branch of
the handler throws a `ReferenceError` for the unbound `next`; the wrapper hands
it to the Error Translator, and the response has status 500 with the message
"next is not defined", not 403.  The update is not performed and the store is
left as it was. -/
theorem patch_by_non_owner_answers_500 {σ : Type} (env : Env σ) (db : σ) (req : Request)
    (a tok : String) (payload : JwtPayload) (u : User)
    (ha : req.authorization = some a) (hs : startsWith a "Bearer " = true)
    (ht : (strSplit a ' ')[1]? = some tok) (hne : tok ≠ "")
    (hv : env.jwtVerify tok = Except.ok payload)
    (hf : env.findById db payload.id = Except.ok (some u))
    (hrole : u.role ≠ "admin") (hid : u.id ≠ req.paramsId) :
    (patchUser env db req).response
      = Except.ok (some (Response.error
          { statusCode := 500, body := { status := "error", message := "next is not defined" } }))
    ∧ (patchUser env db req).db = db
    ∧ (∀ i attrs, Effect.findByIdAndUpdate i attrs ∉ (patchUser env db req).log) := by
  have htok : headerToken req.authorization = some tok := by
    rw [ha, headerToken_bearer a hs, ht]
  have hp := protect_resolved env db req tok payload u htok hne hv hf
  have hscope : "next" ∉ patchHandlerScope := by decide
  have hh : catchAsync (patchUserFn env) db { req with user := some u }
      = { req := { req with user := some u }, db := db,
          log := [Effect.next (some (referenceError "next"))],
          response := none, thrown := none } := by
    simp [catchAsync, patchUserFn, hrole, hid, hscope]
  have htr : translate (referenceError "next")
      = Except.ok (some (Response.error
          { statusCode := 500,
            body := { status := "error", message := "next is not defined" } })) := rfl
  refine ⟨?_, ?_, ?_⟩
  · simp [patchUser, runStack, hp, hh, nextCalls, htr]
  · simp [patchUser, runStack, hp, hh, nextCalls]
  · intro i attrs
    simp [patchUser, runStack, hp, hh, nextCalls]

/-- Witness for C6: Alice, a user-role account, patches Bob's record. -/
theorem patch_by_non_owner_answers_500_witness :
    alice.role ≠ "admin" ∧ alice.id ≠ "b2"
    ∧ (patchUser sampleEnv sampleDb
        (requestTo (some "Bearer signed.a1") "b2"
          { emptyAttrs with name := some "Mallory" })).response
      = Except.ok (some (Response.error
          { statusCode := 500, body := { status := "error", message := "next is not defined" } }))
    ∧ (patchUser sampleEnv sampleDb
        (requestTo (some "Bearer signed.a1") "b2"
          { emptyAttrs with name := some "Mallory" })).db = sampleDb :=
  ⟨by decide, by decide,
   (patch_by_non_owner_answers_500 sampleEnv sampleDb
      (requestTo (some "Bearer signed.a1") "b2" { emptyAttrs with name := some "Mallory" })
      "Bearer signed.a1" "signed.a1" { id := some "a1" } alice
      rfl (by decide) rfl (by decide) rfl rfl (by decide) (by decide)).1,
   (patch_by_non_owner_answers_500 sampleEnv sampleDb
      (requestTo (some "Bearer signed.a1") "b2" { emptyAttrs with name := some "Mallory" })
      "Bearer signed.a1" "signed.a1" { id := some "a1" } alice
      rfl (by decide) rfl (by decide) rfl rfl (by decide) (by decide)).2.1⟩

/-! ## Password hashing -/

/-- The create path hashes: a document returned by `create` holds the hash of
the submitted password. -/
theorem create_stores_hash (lib : Lib) (db : List User) (attrs : UserAttrs) (p : String)
    (doc : User) (hp : attrs.password = some p)
    (hok : (create lib db attrs).2 = Except.ok doc) :
    doc.password = lib.hash p ∧ doc ∈ (create lib db attrs).1 := by
  unfold create at hok ⊢
  simp only [] at hok ⊢
  cases hval : requiredErrors (castAttrs lib attrs) ++ lib.validate (castAttrs lib attrs) with
  | cons e es => simp [hval] at hok
  | nil =>
    have hcp : (castAttrs lib attrs).password = some p := by simp [castAttrs, hp]
    cases hn : (castAttrs lib attrs).name with
    | none => simp [hval, hn] at hok
    | some name =>
      cases he : (castAttrs lib attrs).email with
      | none => simp [hval, hn, he] at hok
      | some email =>
        simp only [hval, hn, he, hcp] at hok ⊢
        by_cases hdup : db.any (fun d => d.email = (preSave lib.hash
            { id := lib.newId db, name := name, email := email, password := p,
              age := (castAttrs lib attrs).age,
              role := (castAttrs lib attrs).role.getD "user" }).email) = true
        · simp [hdup] at hok
        · simp only [hdup] at hok ⊢
          simp at hok
          subst hok
          simp [preSave]

/-- C10, on the code: a successful `findByIdAndUpdate` whose attributes carry
a password returns and stores a document whose password is the submitted text
itself; the hasher is not applied on this path. -/
theorem update_stores_password_unhashed (lib : Lib) (db : List User) (id : String)
    (attrs : UserAttrs) (p : String) (doc : User)
    (hp : attrs.password = some p)
    (hok : (findByIdAndUpdate lib db id attrs).2 = Except.ok (some doc)) :
    doc.password = p ∧ doc ∈ (findByIdAndUpdate lib db id attrs).1 := by
  unfold findByIdAndUpdate at hok ⊢
  simp only [] at hok ⊢
  have hcp : (castAttrs lib attrs).password = some p := by simp [castAttrs, hp]
  cases hval : lib.validateUpdate (castAttrs lib attrs) with
  | cons e es => simp [hval] at hok
  | nil =>
    cases hfind : db.find? (fun d => d.id = id) with
    | none => simp [hval, hfind] at hok
    | some d =>
      simp only [hval, hfind, hcp] at hok ⊢
      split at hok
      · simp at hok
      · rename_i hdup
        simp only [hdup]
        simp at hok
        subst hok
        refine ⟨rfl, ?_⟩
        have hd := List.find?_some hfind
        have hmem := List.mem_of_find?_eq_some hfind
        simp at hd
        simp only [Bool.false_eq_true, if_false, List.mem_map, Option.getD_some]
        exact ⟨d, hmem, by simp [hd]⟩

/-- Witness for C10: Alice sets a new password on her own record through
`PATCH /users/a1`; the collection then holds the submitted text as her password. -/
theorem update_stores_password_unhashed_witness :
    ({ alice with password := "newpassword1" } : User).password = "newpassword1"
    ∧ ({ alice with password := "newpassword1" } : User)
        ∈ (findByIdAndUpdate sampleLib sampleDb "a1"
            { emptyAttrs with password := some "newpassword1" }).1
    ∧ (patchUser sampleEnv sampleDb
        (requestTo (some "Bearer signed.a1") "a1"
          { emptyAttrs with password := some "newpassword1" })).response
      = Except.ok (some (Response.user 200 { alice with password := "newpassword1" }))
    ∧ (patchUser sampleEnv sampleDb
        (requestTo (some "Bearer signed.a1") "a1"
          { emptyAttrs with password := some "newpassword1" })).db
      = [{ alice with password := "newpassword1" }, bob, carol]
    ∧ sampleLib.hash "newpassword1" ≠ "newpassword1" :=
  ⟨(update_stores_password_unhashed sampleLib sampleDb "a1"
      { emptyAttrs with password := some "newpassword1" } "newpassword1"
      { alice with password := "newpassword1" } rfl rfl).1,
   (update_stores_password_unhashed sampleLib sampleDb "a1"
      { emptyAttrs with password := some "newpassword1" } "newpassword1"
      { alice with password := "newpassword1" } rfl rfl).2,
   rfl, rfl, by decide⟩

/-- The signup route on the sample libraries stores the hash of the submitted password. -/
theorem signup_stores_hash_sample :
    (postSignup sampleEnv sampleDb
        { authorization := none, originalUrl := "/signup", paramsId := "",
          body := { name := some "Dave", email := some "dave@example.com",
                    password := some "davepassword", age := none, role := none },
          user := none }).db
      = sampleDb ++ [{ id := "ffff", name := "Dave", email := "dave@example.com",
                       password := "$2a$12$davepassword", age := none, role := "user" }] := by
  rfl

end BackendPractice
